import Mathlib

/-!
Shallow embedding of the go-url-check prober (src/main.go, concurrent variant
starting at the `package main` that declares `ProcessorFunc`, source lines
453-1042 of src/main.go). Pure fragments of the Go functions become Lean
functions; the stateful dispatch/worker code becomes explicit state passing
over a small step relation. Machine integers are modelled as Int/Nat (no
overflow is reachable for status codes and counters in this program).
-/

namespace GoUrlCheck

/-- Go struct `URLResponse` (src/main.go lines 490-493): status line string and URL. -/
structure URLResponse where
  StatusCode : String
  URL : String
deriving DecidableEq, Repr

/-- Classification bracket implied by the color switch in `PrintResponse`
(src/main.go lines 888-901): red = server error, magenta = client error,
yellow = redirect, green = success. -/
inductive Bracket where
  | serverError
  | clientError
  | redirect
  | success
deriving DecidableEq, Repr

/-- The status-code switch of `PrintResponse` (src/main.go lines 888-901):
`status > 499` red, `status > 399` magenta, `status > 299` yellow, default green. -/
def classifyStatus (status : Int) : Bracket :=
  if status > 499 then .serverError
  else if status > 399 then .clientError
  else if status > 299 then .redirect
  else .success

/-- Model of `strings.HasPrefix(s, pre)` from the Go standard library. -/
def strStartsWith (s pre : String) : Bool :=
  pre.toList.isPrefixOf s.toList

/-- Function `PrefixURL` (src/main.go lines 906-911): if the url does not start with
the literal "http", prepend "https://". -/
def PrefixURL (url : String) : String :=
  if !(strStartsWith url "http") then "https://" ++ url else url

/-- The `valid` flag computed by `ParseArgs` (src/main.go lines 783-812):
it is cleared when `Threads < 0` and when both the URL and the wordlist
arguments are empty; `ParseArgs` returns a state (and the run proceeds)
exactly when it stays true. -/
def parseArgsValid (threads : Int) (url wordlist : String) : Bool :=
  !decide (threads < 0) && !(decide (url = "") && decide (wordlist = ""))

/-- Number of worker goroutines spawned by `Process`
(src/main.go line 975: `for i := 0; i < state.Threads; i++`). -/
def workerCount (threads : Int) : Nat :=
  threads.toNat

/-- The throttle guard of the dispatch loop in `Process` (src/main.go
lines 1006-1015): before the dispatch with counter `i`, a pause happens
iff `i > 100 && i%100 == 0` and throttling is enabled. -/
def pauseAt (throttle : Bool) (i : Nat) : Bool :=
  decide (i > 100) && decide (i % 100 = 0) && throttle

/-- Number of pause events while dispatching `n` targets: the counter `i`
starts at 0 and the guard runs once per loop iteration, before the send. -/
def throttlePauseCount (throttle : Bool) (n : Nat) : Nat :=
  ((List.range n).filter (pauseAt throttle)).length

/-- Body of the signal-handling loop in `StartSignalHandler` (src/main.go
lines 952-958), run once per received interrupt: the assignment
`state.ShouldClose = true` is nested inside the `if state.Verbose` block. -/
def signalStep (verbose : Bool) (shouldClose : Bool) : Bool :=
  if verbose then true else shouldClose

/-- Value of `ShouldClose` after `n` interrupt signals have been received by the
handler loop of `StartSignalHandler`, starting from flag value `shouldClose`. -/
def runSignals (verbose : Bool) (shouldClose : Bool) : Nat → Bool
  | 0 => shouldClose
  | n + 1 => runSignals verbose (signalStep verbose shouldClose) n

/-! ### Request executor: RedirectHandler, client, MakeRequest -/

/-- Result of one call to the underlying transport
(`rh.Transport.RoundTrip(req)`): an HTTP response with its status code,
content length and body rune count, or a transport-level error
(`isX509 = true` for a TLS certificate error). -/
inductive Underlying where
  | resp (statusCode : Int) (contentLength : Int) (bodyRunes : Nat)
  | uErr (isX509 : Bool)
deriving DecidableEq, Repr

/-- Result of `RedirectHandler.RoundTrip`: a response, the `RedirectError`
it fabricates for intercepted redirect statuses, or a passed-through
transport error. -/
inductive RTResult where
  | resp (statusCode : Int) (contentLength : Int) (bodyRunes : Nat)
  | redirectError (statusCode : Int)
  | uErr (isX509 : Bool)
deriving DecidableEq, Repr

/-- The status codes intercepted by `RedirectHandler.RoundTrip`
(src/main.go lines 759-763): StatusMovedPermanently 301, StatusFound 302,
StatusSeeOther 303, StatusNotModified 304, StatusUseProxy 305,
StatusTemporaryRedirect 307. -/
def redirectInterceptCodes : List Int :=
  [301, 302, 303, 304, 305, 307]

/-- Method `RedirectHandler.RoundTrip` (src/main.go lines 749-766): with
`FollowRedirect` set it delegates to the transport unchanged; otherwise a
transport error is returned as-is, and a response whose status is in
`redirectInterceptCodes` is replaced by a `RedirectError` with that status. -/
def RoundTrip (followRedirect : Bool) (u : Underlying) : RTResult :=
  if followRedirect then
    match u with
    | .resp c cl br => .resp c cl br
    | .uErr x => .uErr x
  else
    match u with
    | .uErr x => .uErr x
    | .resp c cl br =>
      if c ∈ redirectInterceptCodes then .redirectError c else .resp c cl br

/-- The redirect statuses that Go's `net/http` client itself follows
(301, 302, 303, 307, 308). The client is standard-library code, not part
of this repository; it is modelled here only as the loop around
`RoundTrip` that `s.Client.Do` performs. -/
def clientFollowCodes : List Int :=
  [301, 302, 303, 307, 308]

/-- What `s.Client.Do(req)` hands back to `MakeRequest`: a response, a
`*url.Error` wrapping the handler's `RedirectError`, a `*url.Error` whose
message starts with "x509", or any other network error (DNS failure,
connection refused, timeout). -/
inductive DoResult where
  | ok (statusCode : Int) (contentLength : Int) (bodyRunes : Nat)
  | redirectErr (statusCode : Int)
  | x509Err
  | netErr
deriving DecidableEq, Repr

/-- How Go's `http.Client.Do` reacts to one transport round trip: errors
surface (an x509 error keeps its identity inside the `*url.Error`), a
redirect response the client follows hands control to `recurse` with one
fewer allowed hop (after 10 redirect hops the client gives up with an
error), any other response is final. -/
def clientResume (fuel : Nat) (recurse : Nat → DoResult) : RTResult → DoResult
  | .uErr true => .x509Err
  | .uErr false => .netErr
  | .redirectError c => .redirectErr c
  | .resp c cl br =>
    if c ∈ clientFollowCodes then
      match fuel with
      | 0 => .netErr
      | f + 1 => recurse f
    else .ok c cl br

/-- Go's `http.Client.Do` around the `RedirectHandler` transport: issue
requests through `RoundTrip`, follow a redirect response (status in
`clientFollowCodes`) up to 10 hops, and surface transport errors. `server`
lists the underlying transport results for the successive requests of the
chain. -/
def clientDo (followRedirect : Bool) : Nat → List Underlying → DoResult
  | _, [] => .netErr
  | fuel, u :: rest =>
    clientResume fuel (fun f => clientDo followRedirect f rest)
      (RoundTrip followRedirect u)

/-- Function `MakeRequest` (src/main.go lines 527-579), as a function of what
`s.Client.Do` returned: a wrapped `RedirectError` yields the redirect's
status code and no length; an x509 error prints a notice and, like every
other error, yields `(nil, nil)`; a response yields its status code, and,
when `IncludeLength` is set, its content length, falling back to the body
rune count when the reported content length is not positive. -/
def MakeRequest (includeLength : Bool) (r : DoResult) : Option Int × Option Int :=
  match r with
  | .netErr => (none, none)
  | .x509Err => (none, none)
  | .redirectErr c => (some c, none)
  | .ok c cl br =>
    (some c, if includeLength then some (if cl ≤ 0 then (br : Int) else cl) else none)

/-! ### The plain `http.Get` path used by `Check` -/

/-- Result of `http.Get(url)` as seen by `Request`
(src/main.go lines 914-926): a response carrying its `Status` string, or
any error. -/
inductive GetOutcome where
  | ok (status : String)
  | getErr
deriving DecidableEq, Repr

/-- Function `Request` (src/main.go lines 914-926): returns `nil` on error,
the response otherwise; `none` models the `nil` pointer. -/
def Request : GetOutcome → Option String
  | .ok st => some st
  | .getErr => none

/-- Function `Check` (src/main.go lines 929-945): prefixes the url, issues the
request, and when a response arrived appends the `(Status, url)` outcome to
`state.Responses`; on a `nil` response it returns `state.Responses`
unchanged. -/
def Check (url : String) (responses : List URLResponse) (g : GetOutcome) : List URLResponse :=
  let url2 := PrefixURL url
  match Request g with
  | some st => responses ++ [{ StatusCode := st, URL := url2 }]
  | none => responses

/-! ### Output-file writer -/

/-- The line `WriteOutput` writes for one response (src/main.go line 694):
`fmt.Sprintf("%s %s\n", state.Responses[u].URL, state.Responses[u].StatusCode)`. -/
def serializeOutcome (r : URLResponse) : String :=
  r.URL ++ " " ++ r.StatusCode ++ "\n"

/-- One event of the writer loop: the line was written, or the write
errored (the error is logged with `color.HiRed` and the loop continues). -/
inductive WriteEvent where
  | wrote (line : String)
  | writeFailed (line : String)
deriving DecidableEq, Repr

/-- The write loop of `WriteOutput` (src/main.go lines 693-701): one
`WriteString` per accumulated response, in order; a failed write is logged
and the loop continues with the next response. `ok` tells which lines the
file accepts. -/
def writeOutputLoop (ok : String → Bool) : List URLResponse → List WriteEvent
  | [] => []
  | r :: rest =>
    let line := serializeOutcome r
    (if ok line then WriteEvent.wrote line else WriteEvent.writeFailed line)
      :: writeOutputLoop ok rest

/-- Result of `os.Create(state.OutputFileName)`. -/
inductive CreateResult where
  | created
  | createFailed
deriving DecidableEq, Repr

/-- Function `WriteOutput` (src/main.go lines 684-706): does nothing when no output
file is configured; on a create failure logs a fallback notice and returns
`(false, err)`; otherwise runs the write loop over every response and
returns true. The event list records what reached the file. -/
def WriteOutput (outputFileName : String) (create : CreateResult)
    (ok : String → Bool) (responses : List URLResponse) : Bool × List WriteEvent :=
  if outputFileName = "" then (false, [])
  else
    match create with
    | .createFailed => (false, [])
    | .created => (true, writeOutputLoop ok responses)

/-! ### Worker threads and the shared `State.Responses` field

`Process` (src/main.go lines 963-1032) spawns `state.Threads` goroutines,
each looping `url := <-urlChannel; state.Responses = state.Processor(url,
state)` with `Processor = Check`.  `Check` reads `state.Responses` (inside
`append(state.Responses, r)`) and the worker then assigns the result back
to the shared field, with no lock: the read and the write are two separate
accesses to shared memory.  The step relation below makes exactly those
two accesses atomic steps of each worker, so interleavings of the Go
scheduler are schedules here. -/

/-- One worker goroutine processing one url: `phase 0` — about to evaluate
`append(state.Responses, outcome)`, i.e. to read the shared field; `phase 1`
— holding the snapshot `snap`, about to assign `state.Responses`; `phase 2`
— done. `outcome` is the `URLResponse` its `Check` call produced. -/
structure Worker where
  url : String
  outcome : URLResponse
  phase : Nat
  snap : List URLResponse
deriving DecidableEq, Repr

/-- The shared state of `Process`: the `State.Responses` field and the
worker goroutines. -/
structure Sys where
  responses : List URLResponse
  workers : List Worker
deriving DecidableEq, Repr

/-- One scheduler step: worker `t` performs its next access.
In phase 0 it snapshots `state.Responses`; in phase 1 it assigns
`state.Responses = snap ++ [outcome]` (the `append` of `Check` followed by
the worker's assignment). -/
def stepWorker (s : Sys) (t : Nat) : Sys :=
  match s.workers[t]? with
  | none => s
  | some w =>
    if w.phase = 0 then
      { s with workers := s.workers.set t { w with phase := 1, snap := s.responses } }
    else if w.phase = 1 then
      { responses := w.snap ++ [w.outcome],
        workers := s.workers.set t { w with phase := 2 } }
    else s

/-- Run a schedule (a list of worker indices, each performing its next
access in turn). -/
def runSched (s : Sys) : List Nat → Sys
  | [] => s
  | t :: rest => runSched (stepWorker s t) rest

/-! ### PrintResponse string handling -/

/-- Model of `strings.Index(s, " ")` for ASCII strings: byte index of the first
space, `-1` when there is none. -/
def indexOfSpaceAux : List Char → Int
  | [] => -1
  | c :: rest =>
    if c = ' ' then 0
    else
      let r := indexOfSpaceAux rest
      if r < 0 then -1 else r + 1

/-- Model of `strings.Index(statusCode, " ")` on a Lean string. -/
def goIndexSpace (s : String) : Int :=
  indexOfSpaceAux s.toList

/-- The Go slice expression `s[:hi]`: panics (modelled as `none`) unless
`0 ≤ hi ≤ len(s)`. -/
def goSliceTo (s : String) (hi : Int) : Option String :=
  if 0 ≤ hi ∧ hi ≤ (s.toList.length : Int) then
    some (String.mk (s.toList.take hi.toNat))
  else none

/-- Digit run of `strconv.Atoi`: `none` when a non-digit appears. -/
def parseDigits : List Char → Nat → Option Nat
  | [], acc => some acc
  | c :: rest, acc =>
    if c.isDigit then parseDigits rest (acc * 10 + (c.toNat - 48)) else none

/-- Model of `strconv.Atoi(s)`: optional sign followed by at least one digit;
`none` models a non-nil error. -/
def goAtoi (s : String) : Option Int :=
  match s.toList with
  | [] => none
  | '-' :: rest =>
    match rest with
    | [] => none
    | _ => (parseDigits rest 0).map (fun n => -(n : Int))
  | '+' :: rest =>
    match rest with
    | [] => none
    | _ => (parseDigits rest 0).map (fun n => (n : Int))
  | cs => (parseDigits cs 0).map (fun n => (n : Int))

/-- What `PrintResponse` does with a status line: printed with a bracket
color, or skipped because `strconv.Atoi` returned an error. -/
inductive PrintAction where
  | printed (bracket : Bracket)
  | skipped
deriving DecidableEq, Repr

/-- Function `PrintResponse` (src/main.go lines 882-903) as a function of the
response's `StatusCode` string: it slices the string up to
`strings.Index(statusCode, " ")`, converts with `Atoi`, and on success
prints with the color switch modelled by `classifyStatus`. `none` models
the runtime panic of the slice expression when the index is out of range. -/
def PrintResponse (statusCode : String) : Option PrintAction :=
  match goSliceTo statusCode (goIndexSpace statusCode) with
  | none => none
  | some sub =>
    match goAtoi sub with
    | none => some .skipped
    | some status => some (.printed (classifyStatus status))

/-! ### Concrete fixtures for the race and dispatch scenarios -/

/-- Predicate on an underlying transport result: a response whose status the
Go client would itself follow. -/
def followHop : Underlying → Bool
  | .resp c _ _ => decide (c ∈ clientFollowCodes)
  | .uErr _ => false

/-- Outcome produced by the worker probing `a.test`. -/
def raceOutcomeA : URLResponse :=
  { StatusCode := "200 OK", URL := "https://a.test" }

/-- Outcome produced by the worker probing `b.test`. -/
def raceOutcomeB : URLResponse :=
  { StatusCode := "200 OK", URL := "https://b.test" }

/-- A run of `Process` with `Threads = 2`: both workers have pulled their
url from `urlChannel` and are about to evaluate
`state.Responses = state.Processor(url, state)`. -/
def twoWorkerInit : Sys :=
  { responses := [],
    workers := [{ url := "a.test", outcome := raceOutcomeA, phase := 0, snap := [] },
                { url := "b.test", outcome := raceOutcomeB, phase := 0, snap := [] }] }

/-- The state after the scheduler interleaves the two workers as
read A, read B, write A, write B. -/
def raceFinal : Sys :=
  runSched twoWorkerInit [0, 1, 0, 1]

/-- A `Process` state with zero workers, as spawned when `Threads = 0`. -/
def noWorkerInit : Sys :=
  { responses := [], workers := [] }

/-! ## Helper lemmas -/

/-- The write loop emits exactly one event per accumulated response, in
order, whether or not the individual write succeeds. -/
theorem writeOutputLoop_eq_map (ok : String → Bool) (rs : List URLResponse) :
    writeOutputLoop ok rs = rs.map (fun x =>
      if ok (serializeOutcome x) then WriteEvent.wrote (serializeOutcome x)
      else WriteEvent.writeFailed (serializeOutcome x)) := by
  induction rs with
  | nil => rfl
  | cons r rest ih => simp [writeOutputLoop, ih]

/-- With no worker spawned, no schedule ever touches `State.Responses`. -/
theorem runSched_noWorkers (sched : List Nat) :
    runSched noWorkerInit sched = noWorkerInit := by
  induction sched with
  | nil => rfl
  | cons t rest ih => simpa [runSched, stepWorker, noWorkerInit] using ih

/-- A chain of followable redirect responses within the fuel bound is
followed transparently down to the final non-redirect response. -/
theorem clientDo_follows_chain (hops : List Underlying) :
    ∀ (fuel : Nat) (f fcl : Int) (fbr : Nat),
      (∀ u ∈ hops, followHop u = true) →
      hops.length ≤ fuel →
      decide (f ∈ clientFollowCodes) = false →
      clientDo true fuel (hops ++ [Underlying.resp f fcl fbr]) = DoResult.ok f fcl fbr := by
  induction hops with
  | nil =>
    intro fuel f fcl fbr _ _ hf
    simp [clientDo, clientResume, RoundTrip, of_decide_eq_false hf]
  | cons u rest ih =>
    intro fuel f fcl fbr hh hl hf
    obtain ⟨c, cl, br, rfl⟩ : ∃ c cl br, u = Underlying.resp c cl br := by
      cases u with
      | resp c cl br => exact ⟨c, cl, br, rfl⟩
      | uErr x => simpa [followHop] using hh _ (List.mem_cons_self _ _)
    have hc : c ∈ clientFollowCodes := by
      have := hh _ (List.mem_cons_self _ _)
      simpa [followHop] using this
    cases fuel with
    | zero => simp at hl
    | succ f' =>
      have hrest : ∀ v ∈ rest, followHop v = true := fun v hv =>
        hh v (List.mem_cons_of_mem _ hv)
      have hl' : rest.length ≤ f' := by simpa using hl
      simpa [clientDo, clientResume, RoundTrip, hc] using ih f' f fcl fbr hrest hl' hf

/-- When the char list has no space, the modelled `strings.Index` is -1. -/
theorem indexOfSpaceAux_of_not_mem (l : List Char) (h : ¬ (' ' ∈ l)) :
    indexOfSpaceAux l = -1 := by
  induction l with
  | nil => rfl
  | cons c rest ih =>
    rw [List.mem_cons, not_or] at h
    have hc : ¬ (c = ' ') := fun hch => h.1 hch.symm
    simp [indexOfSpaceAux, hc, ih h.2]

/-- When the char list has a space, the modelled `strings.Index` is a
position inside the list. -/
theorem indexOfSpaceAux_of_mem (l : List Char) (h : ' ' ∈ l) :
    0 ≤ indexOfSpaceAux l ∧ indexOfSpaceAux l < (l.length : Int) := by
  induction l with
  | nil => simp at h
  | cons c rest ih =>
    by_cases hc : c = ' '
    · refine ⟨by simp [indexOfSpaceAux, hc], ?_⟩
      simp [indexOfSpaceAux, hc]
    · have hr : ' ' ∈ rest := by
        rcases List.mem_cons.mp h with h1 | h2
        · exact absurd h1.symm hc
        · exact h2
      obtain ⟨h0, hlt⟩ := ih hr
      have hnn : ¬ (indexOfSpaceAux rest < 0) := not_lt.mpr h0
      constructor
      · simp [indexOfSpaceAux, hc, hnn]
        omega
      · simp [indexOfSpaceAux, hc, hnn]
        omega

/-! ## Claim theorems -/

/-- Claim C1. The claim reads "configuration validation rejects a
non-positive thread count"; the `ParseArgs` check is `s.Threads < 0`, so a
thread count of exactly 0 passes validation and `Process` is entered,
where the spawn loop creates zero workers (so no probe ever runs, while
the dispatcher's first channel send blocks forever with no receiver).
This theorem evaluates the embedded code at the failing input: with 0
threads and a non-empty target, validation succeeds, zero workers are
spawned, and no schedule of a zero-worker pool ever records a response;
with a negative count validation does reject. -/
theorem parseArgs_accepts_zero_threads :
    parseArgsValid 0 "http://example.com" "" = true ∧
    workerCount 0 = 0 ∧
    runSched noWorkerInit [0, 1, 2, 3] = noWorkerInit ∧
    parseArgsValid (-1) "http://example.com" "" = false := by
  decide

/-- Claim C2. The claim reads "regardless of any other configuration
setting, upon receiving one interrupt signal the monitor sets
`State.ShouldClose` to true"; in `StartSignalHandler` the assignment
`state.ShouldClose = true` sits inside the `if state.Verbose` block, so
with `Verbose = false` the flag stays false no matter how many interrupts
arrive. This theorem evaluates the embedded handler at the failing input
(one interrupt, `Verbose = false`), and contrasts it with the verbose
configuration, where the flag is set on the first signal and stays true
(idempotently) on later ones. -/
theorem signal_flag_only_set_when_verbose :
    runSignals false false 1 = false ∧
    runSignals false false 5 = false ∧
    runSignals true false 1 = true ∧
    runSignals true true 3 = true := by
  decide

/-- Claim C3. The claim reads "dispatching 250 targets causes exactly 2
pauses (after the 100th and 200th dispatch)"; the guard in `Process` is
`i > 100 && i%100 == 0`, which is false at counter value 100, so over 250
targets only the check at counter 200 pauses: exactly 1 pause event. This
theorem evaluates the embedded dispatch guard at the failing input. -/
theorem throttle_pauses_once_for_250_targets :
    throttlePauseCount true 250 = 1 ∧
    pauseAt true 100 = false ∧
    pauseAt true 200 = true ∧
    throttlePauseCount false 250 = 0 := by
  decide

/-- Claim C4: with `followRedirects = false` a response whose status is in
{301, 302, 303, 304, 305, 307} resolves to a redirect outcome carrying
exactly that status, without following the Location header (the rest of
the server chain is never consulted); with `followRedirects = true` the
client follows redirects transparently and `MakeRequest` reports the final
response's status. -/
theorem redirect_policy (c cl fcl : Int) (br fbr : Nat)
    (rest hops : List Underlying) (il : Bool) (f : Int)
    (hc : c ∈ redirectInterceptCodes)
    (hh : ∀ u ∈ hops, followHop u = true)
    (hl : hops.length ≤ 10)
    (hf : decide (f ∈ clientFollowCodes) = false) :
    clientDo false 10 (Underlying.resp c cl br :: rest) = DoResult.redirectErr c ∧
    MakeRequest il (DoResult.redirectErr c) = (some c, none) ∧
    clientDo true 10 (hops ++ [Underlying.resp f fcl fbr]) = DoResult.ok f fcl fbr ∧
    (MakeRequest il (DoResult.ok f fcl fbr)).1 = some f := by
  refine ⟨?_, rfl, ?_, rfl⟩
  · simp [clientDo, clientResume, RoundTrip, hc]
  · exact clientDo_follows_chain hops 10 f fcl fbr hh hl hf

/-- Witness for C4: a 302 with redirects disabled resolves to the redirect
outcome 302 without touching the rest of the chain; the same chain with
redirects enabled is followed to the final 200. -/
theorem redirect_policy_witness :
    clientDo false 10 [Underlying.resp 302 0 0, Underlying.resp 200 5 0] =
      DoResult.redirectErr 302 ∧
    MakeRequest true (DoResult.redirectErr 302) = (some 302, none) ∧
    clientDo true 10 ([Underlying.resp 302 0 0] ++ [Underlying.resp 200 5 0]) =
      DoResult.ok 200 5 0 ∧
    (MakeRequest true (DoResult.ok 200 5 0)).1 = some 200 :=
  redirect_policy 302 0 5 0 0 [Underlying.resp 200 5 0] [Underlying.resp 302 0 0]
    true 200 (by decide) (by decide) (by decide) (by decide)

/-- Counterexample to C5 as stated: the claim says normalization prepends
the default scheme "http://", but `PrefixURL` in the embedded variant
prepends "https://": on the bare host "example.com" the result is
"https://example.com", not "http://example.com". -/
theorem prefixURL_scheme_counterexample :
    PrefixURL "example.com" = "https://example.com" ∧
    PrefixURL "example.com" ≠ "http://example.com" := by
  decide

/-- Claim C5 as amended: for every target string that does not already
begin with the literal "http", request-time normalization prepends the
scheme "https://"; a target that already begins with "http" (in
particular one carrying an explicit http:// or https:// scheme) is left
unchanged. -/
theorem prefixURL_prepends_https (url rest : String) :
    (strStartsWith url "http" = false → PrefixURL url = "https://" ++ url) ∧
    (strStartsWith url "http" = true → PrefixURL url = url) ∧
    PrefixURL ("http://" ++ rest) = "http://" ++ rest ∧
    PrefixURL ("https://" ++ rest) = "https://" ++ rest := by
  refine ⟨fun h => by simp [PrefixURL, h], fun h => by simp [PrefixURL, h], ?_, ?_⟩
  · have : strStartsWith ("http://" ++ rest) "http" = true := by
      simp [strStartsWith, String.toList, List.isPrefixOf]
    simp [PrefixURL, this]
  · have : strStartsWith ("https://" ++ rest) "http" = true := by
      simp [strStartsWith, String.toList, List.isPrefixOf]
    simp [PrefixURL, this]

/-- Witness for C5 (amended): the bare host gets "https://", a target
already carrying a scheme is unchanged. -/
theorem prefixURL_prepends_https_witness :
    PrefixURL "example.com" = "https://" ++ "example.com" ∧
    PrefixURL ("http://" ++ "a.test") = "http://" ++ "a.test" :=
  ⟨(prefixURL_prepends_https "example.com" "a.test").1 (by decide),
   (prefixURL_prepends_https "example.com" "a.test").2.2.1⟩

/-- Counterexample to C6 as stated: the claim says each line is
`<status> <url>` (status first); `WriteOutput` formats with
`fmt.Sprintf("%s %s\n", URL, StatusCode)`, so the URL comes first. -/
theorem writeOutput_line_order_counterexample :
    serializeOutcome { StatusCode := "200 OK", URL := "http://a.test" } =
      "http://a.test 200 OK\n" ∧
    serializeOutcome { StatusCode := "200 OK", URL := "http://a.test" } ≠
      "200 OK http://a.test\n" := by
  decide

/-- Claim C6 as amended: when an output file is configured (non-empty
name) and created, the writer serializes every accumulated outcome as one
line of the form `<url> <status>` — the URL first, then the status
representation, separated by a single space and terminated by a newline —
and a write error is logged and skipped without stopping the loop or
crashing: one event per response regardless of which writes fail. -/
theorem writeOutput_url_first_failsoft (fn : String) (ok : String → Bool)
    (rs : List URLResponse) (r : URLResponse) (hfn : fn ≠ "") :
    WriteOutput fn CreateResult.created ok rs =
      (true, rs.map (fun x =>
        if ok (serializeOutcome x) then WriteEvent.wrote (serializeOutcome x)
        else WriteEvent.writeFailed (serializeOutcome x))) ∧
    (writeOutputLoop ok rs).length = rs.length ∧
    serializeOutcome r = r.URL ++ " " ++ r.StatusCode ++ "\n" := by
  refine ⟨?_, ?_, rfl⟩
  · simp [WriteOutput, hfn, writeOutputLoop_eq_map]
  · simp [writeOutputLoop_eq_map]

/-- Witness for C6 (amended): one response whose write fails still yields
exactly one (failed) event carrying the url-first line, and the run does
not crash. -/
theorem writeOutput_url_first_failsoft_witness :
    WriteOutput "out.txt" CreateResult.created (fun _ => false)
        [{ StatusCode := "200 OK", URL := "http://a.test" }] =
      (true, [{ StatusCode := "200 OK", URL := "http://a.test" : URLResponse }].map
        (fun x =>
          if (fun _ => false) (serializeOutcome x) then WriteEvent.wrote (serializeOutcome x)
          else WriteEvent.writeFailed (serializeOutcome x))) ∧
    (writeOutputLoop (fun _ => false)
        [{ StatusCode := "200 OK", URL := "http://a.test" }]).length =
      [{ StatusCode := "200 OK", URL := "http://a.test" : URLResponse }].length ∧
    serializeOutcome { StatusCode := "200 OK", URL := "http://a.test" } =
      "http://a.test" ++ " " ++ "200 OK" ++ "\n" :=
  writeOutput_url_first_failsoft "out.txt" (fun _ => false)
    [{ StatusCode := "200 OK", URL := "http://a.test" }]
    { StatusCode := "200 OK", URL := "http://a.test" } (by decide)

/-- Claim C7: a probe whose request fails with a network error or a TLS
certificate error yields the "no outcome" sentinel — `MakeRequest` returns
`(nil, nil)` and the `Check` path leaves the result collection unchanged
for that target; both return normally (no retry is even expressible: each
is a single pass over one transport result, and no error aborts the run). -/
theorem network_error_yields_no_outcome (il : Bool) (r : DoResult) (url : String)
    (responses : List URLResponse) (g : GetOutcome)
    (hr : r = DoResult.netErr ∨ r = DoResult.x509Err)
    (hg : Request g = none) :
    MakeRequest il r = (none, none) ∧
    Check url responses g = responses := by
  constructor
  · rcases hr with h | h <;> subst h <;> rfl
  · simp [Check, hg]

/-- Witness for C7: a DNS-style failure gives the sentinel and leaves an
empty collection empty. -/
theorem network_error_yields_no_outcome_witness :
    MakeRequest false DoResult.netErr = (none, none) ∧
    Check "bad.invalid" [] GetOutcome.getErr = [] :=
  network_error_yields_no_outcome false DoResult.netErr "bad.invalid" []
    GetOutcome.getErr (Or.inl rfl) rfl

/-- Claim C8: outcome classification is a pure, deterministic function of
the numeric status code alone; a status of at least 500 classifies as
server-error, 400-499 as client-error, 300-399 as redirect, anything else
as success; the boundary values 500 and 300 fall in the higher-severity
bracket they open, and classifying the same code twice gives the same
bracket. -/
theorem classify_status_brackets (s : Int) :
    (500 ≤ s → classifyStatus s = Bracket.serverError) ∧
    (400 ≤ s ∧ s ≤ 499 → classifyStatus s = Bracket.clientError) ∧
    (300 ≤ s ∧ s ≤ 399 → classifyStatus s = Bracket.redirect) ∧
    (s ≤ 299 → classifyStatus s = Bracket.success) ∧
    classifyStatus s = classifyStatus s := by
  refine ⟨?_, ?_, ?_, ?_, rfl⟩ <;>
    · intro h
      unfold classifyStatus
      split_ifs <;> first | rfl | omega

/-- Witness for C8: the example codes of the claim, with the boundary
values 500 and 300. -/
theorem classify_status_brackets_witness :
    classifyStatus 500 = Bracket.serverError ∧
    classifyStatus 300 = Bracket.redirect ∧
    classifyStatus 200 = Bracket.success ∧
    classifyStatus 404 = Bracket.clientError ∧
    classifyStatus 301 = Bracket.redirect :=
  ⟨(classify_status_brackets 500).1 (by decide),
   (classify_status_brackets 300).2.2.1 ⟨by decide, by decide⟩,
   (classify_status_brackets 200).2.2.2.1 (by decide),
   (classify_status_brackets 404).2.1 ⟨by decide, by decide⟩,
   (classify_status_brackets 301).2.2.1 ⟨by decide, by decide⟩⟩

/-- Claim C9. The claim reads "`State.Responses` is mutated exclusively by
a single dedicated thread and never touched concurrently by workers"; in
`Process` every worker goroutine itself executes
`state.Responses = state.Processor(url, state)` (the single-consumer
response channel is commented out), so all `Threads` workers write the
shared field with no lock. This theorem evaluates that code on the failing
input: two workers whose unsynchronized read/append/assign sequences
interleave; both finish, yet the first worker's outcome is missing from
the final collection (a lost update), which is impossible under
single-writer ownership that appends every forwarded outcome. -/
theorem workers_race_on_responses :
    raceFinal.responses = [raceOutcomeB] ∧
    raceFinal.workers.all (fun w => w.phase == 2) = true ∧
    raceFinal.responses.contains raceOutcomeA = false := by
  decide

/-- Claim C10: for every `URLResponse` whose status string contains no
space, `PrintResponse` panics — it slices up to `strings.Index(statusCode,
" ")`, which is -1, a slice-bounds violation; and whenever the status does
contain a space (as every status of the form `<code> <reason>` does) the
slice is in bounds and the call is safe (it prints or, if the prefix is
not a number, silently skips). -/
theorem printResponse_panics_without_space (s : String) :
    (¬ (' ' ∈ s.toList) → PrintResponse s = none) ∧
    (' ' ∈ s.toList → (PrintResponse s).isSome = true) := by
  constructor
  · intro h
    have hidx : indexOfSpaceAux s.data = -1 := indexOfSpaceAux_of_not_mem _ h
    simp [PrintResponse, goSliceTo, goIndexSpace, String.toList, hidx]
  · intro h
    obtain ⟨h0, hlt⟩ := indexOfSpaceAux_of_mem s.toList h
    unfold PrintResponse goSliceTo goIndexSpace
    rw [if_pos ⟨h0, le_of_lt hlt⟩]
    have hAll : ∀ o : Option Int,
        (match o with
          | none => some PrintAction.skipped
          | some status => some (PrintAction.printed (classifyStatus status))).isSome = true := by
      intro o
      cases o <;> rfl
    exact hAll _

/-- Witness for C10: the bare status "200" panics; the full status line
"200 OK" is safe. -/
theorem printResponse_panics_without_space_witness :
    PrintResponse "200" = none ∧ (PrintResponse "200 OK").isSome = true :=
  ⟨(printResponse_panics_without_space "200").1 (by decide),
   (printResponse_panics_without_space "200 OK").2 (by decide)⟩

end GoUrlCheck
